import Mathlib

/-!
Verification development for the expo-healthkit-module repository: a shallow
embedding of the TypeScript facade (index re-export module), the Android
Kotlin native module (Health Connect) and the iOS Swift native module
(HealthKit), together with theorems about the identifier mapping, the record
normalizers, the getHealthData error handling and the background-sync stubs.

Modelling conventions:
- JavaScript/Swift/Kotlin strings are Lean `String`s; numbers that are
  IEEE doubles in the source are modelled as `ℚ` (they are only passed
  through, never computed with); 64-bit integers as `ℤ`.
- Platform SDK calls (HealthKit store queries, Health Connect reads, date
  formatters/parsers) are opaque: they are supplied as function-valued
  fields of an environment structure, so each theorem quantifies over
  every possible SDK behaviour.
- Promises always resolve in the source (never reject); a call is modelled
  as a total function returning the resolved value, plus a Boolean
  recording whether a native store query was actually issued.
-/

/-- The value of `Platform.OS` as tested by the facade: it compares against
"ios" and "android" and treats everything else uniformly. -/
inductive PlatformKind
  | ios
  | android
  | other
deriving DecidableEq

/-- Heterogeneous value payload of a normalized sample (`value` key):
quantity samples carry a double, category samples a mapped string or a raw
integer code, Android records a double, long or string. -/
inductive SVal
  | num (q : ℚ)
  | int (n : ℤ)
  | str (s : String)
deriving DecidableEq

/-- Raw metadata entry of a native record before normalization. `num`
covers the NSNumber cases (Int, Double, Bool); `other` is any
non-serializable payload, which the normalizer drops. -/
inductive MetaRaw
  | str (s : String)
  | num (q : ℚ)
  | date (d : ℤ)
  | other
deriving DecidableEq

/-- Metadata entry after normalization (AnyCodable-wrapped scalar). -/
inductive MetaVal
  | str (s : String)
  | num (q : ℚ)
deriving DecidableEq

/-- One normalized health sample, the flat dictionary produced by both
native normalizers. Keys that a given record kind does not emit are `none`. -/
structure Sample where
  type : String
  sourceName : String
  sourceVersion : Option String := none
  device : Option String := none
  creationDate : String
  startDate : String
  endDate : String
  metadata : Option (List (String × MetaVal)) := none
  unit : Option String := none
  value : Option SVal := none
  workoutActivityType : Option String := none
  duration : Option ℚ := none
  durationUnit : Option String := none
  totalEnergyBurned : Option ℚ := none
  totalEnergyBurnedUnit : Option String := none
  totalDistance : Option ℚ := none
  totalDistanceUnit : Option String := none
deriving DecidableEq

/-- Structured error of a GetHealthDataResult. -/
structure HealthError where
  code : String
  message : String
deriving DecidableEq

/-- The resolved value of a getHealthData promise; `error = none` models
both an absent error key and an explicit null/NSNull. -/
structure HealthResult where
  success : Bool
  data : List Sample
  error : Option HealthError
deriving DecidableEq

/-- A native getHealthData call outcome: the resolved result plus whether a
native health-store query was issued before resolving. -/
structure NativeCall where
  result : HealthResult
  queried : Bool
deriving DecidableEq

/-- A facade getHealthData call outcome: the resolved result plus whether
the native module was invoked at all. -/
structure FacadeCall where
  result : HealthResult
  nativeCalled : Bool
deriving DecidableEq

/-- AuthorizeResult shape shared by facade and natives. -/
structure AuthorizeResultM where
  success : Bool
  granted : List String
  denied : List String
  error : Option String
deriving DecidableEq

/-- An authorizeHealthKit facade call outcome. -/
structure AuthorizeCall where
  result : AuthorizeResultM
  nativeCalled : Bool
deriving DecidableEq

/-! ### The facade date regex

`/^\d{4}-\d{2}-\d{2}T\d{2}:\d{2}:\d{2}(\.\d{3})?Z?$/` from the facade's
getHealthData, modelled as a consuming matcher over the character list.
The two optional groups commute with backtracking here because a skipped
`.`/`Z` can never be matched by anything later in the pattern. -/

/-- Consume exactly `n` ASCII digits (JS `\d`). -/
def eatDigits : Nat → List Char → Option (List Char)
  | 0, cs => some cs
  | _ + 1, [] => none
  | n + 1, c :: cs => if c.isDigit then eatDigits n cs else none

/-- Consume one literal character. -/
def eatSym (ch : Char) : List Char → Option (List Char)
  | [] => none
  | c :: cs => if c = ch then some cs else none

/-- The facade's basic ISO-8601 check: `YYYY-MM-DDTHH:mm:ss(.sss)?Z?`,
anchored at both ends. -/
def matchesDateRegex (s : String) : Bool :=
  let core := (((((((((eatDigits 4 s.data).bind (eatSym '-')).bind
    (eatDigits 2)).bind (eatSym '-')).bind (eatDigits 2)).bind
    (eatSym 'T')).bind (eatDigits 2)).bind (eatSym ':')).bind
    (eatDigits 2)).bind (eatSym ':') |>.bind (eatDigits 2)
  match core with
  | none => false
  | some cs =>
    let afterFrac := match (eatSym '.' cs).bind (eatDigits 3) with
      | some cs2 => cs2
      | none => cs
    let afterZone := match eatSym 'Z' afterFrac with
      | some cs3 => cs3
      | none => afterFrac
    afterZone.isEmpty

/-! ### Identifier Mapper (facade) -/

/-- One row of the cross-platform mapping table. -/
structure MappingEntry where
  ios : String
  android : String
deriving DecidableEq

/-- `IDENTIFIER_MAPPING` from the facade, in source order. -/
def IDENTIFIER_MAPPING : List (String × MappingEntry) := [
  ("stepCount", ⟨"HKQuantityTypeIdentifierStepCount", "Steps"⟩),
  ("heartRate", ⟨"HKQuantityTypeIdentifierHeartRate", "HeartRate"⟩),
  ("activeEnergyBurned", ⟨"HKQuantityTypeIdentifierActiveEnergyBurned", "ActiveCaloriesBurned"⟩),
  ("distanceWalkingRunning", ⟨"HKQuantityTypeIdentifierDistanceWalkingRunning", "Distance"⟩),
  ("flightsClimbed", ⟨"HKQuantityTypeIdentifierFlightsClimbed", "FloorsClimbed"⟩),
  ("restingHeartRate", ⟨"HKQuantityTypeIdentifierRestingHeartRate", "RestingHeartRate"⟩),
  ("respiratoryRate", ⟨"HKQuantityTypeIdentifierRespiratoryRate", "RespiratoryRate"⟩),
  ("vo2Max", ⟨"HKQuantityTypeIdentifierVO2Max", "Vo2Max"⟩),
  ("sleepAnalysis", ⟨"HKCategoryTypeIdentifierSleepAnalysis", "SleepSession"⟩),
  ("workout", ⟨"HKWorkoutTypeIdentifier", "ExerciseSession"⟩)]

/-- Property lookup `IDENTIFIER_MAPPING[id]` (plain-object own keys). -/
def lookupIdentifierMapping (id : String) : Option MappingEntry :=
  (IDENTIFIER_MAPPING.find? (fun e => e.1 == id)).map Prod.snd

/-- `getPlatformIdentifier` from the facade: unknown ids pass through; for
known ids, `Platform.OS === "ios"` selects the iOS column, everything else
the Android column. -/
def getPlatformIdentifier (os : PlatformKind) (crossPlatformId : String) : String :=
  match lookupIdentifierMapping crossPlatformId with
  | none => crossPlatformId
  | some mapping => if os = PlatformKind.ios then mapping.ios else mapping.android

/-! ### iOS native module -/

/-- The HKUnit values constructed by the iOS `getUnit(forIdentifier:)`
helper. -/
inductive HKUnitM
  | kcal
  | min
  | km
  | count
  | countPerMin
  | ms
  | mlPerKgMin
deriving DecidableEq

/-- `unitString` of the constructed HKUnit, as emitted in the sample's
`unit` key (the compound VO2Max unit string is the SDK's rendering of
mL/(kg*min), written here as in the TypeScript HealthUnit type). -/
def HKUnitM.unitString : HKUnitM → String
  | .kcal => "kcal"
  | .min => "min"
  | .km => "km"
  | .count => "count"
  | .countPerMin => "count/min"
  | .ms => "ms"
  | .mlPerKgMin => "ml/(kg*min)"

/-- `quantityTypeIdentifiers` from the iOS module, in source order. -/
def quantityTypeIdentifiers : List String := [
  "HKQuantityTypeIdentifierActiveEnergyBurned",
  "HKQuantityTypeIdentifierAppleExerciseTime",
  "HKQuantityTypeIdentifierAppleStandTime",
  "HKQuantityTypeIdentifierBasalEnergyBurned",
  "HKQuantityTypeIdentifierDistanceCycling",
  "HKQuantityTypeIdentifierDistanceWalkingRunning",
  "HKQuantityTypeIdentifierFlightsClimbed",
  "HKQuantityTypeIdentifierHeartRate",
  "HKQuantityTypeIdentifierHeartRateRecoveryOneMinute",
  "HKQuantityTypeIdentifierHeartRateVariabilitySDNN",
  "HKQuantityTypeIdentifierRespiratoryRate",
  "HKQuantityTypeIdentifierRestingHeartRate",
  "HKQuantityTypeIdentifierStepCount",
  "HKQuantityTypeIdentifierVO2Max"]

/-- `categoryTypeIdentifiers` from the iOS module. -/
def categoryTypeIdentifiers : List String := ["HKCategoryTypeIdentifierSleepAnalysis"]

/-- `workoutTypeIdentifiers` from the iOS module. -/
def workoutTypeIdentifiers : List String := ["HKWorkoutTypeIdentifier"]

/-- iOS `getUnit(forIdentifier:)`: the fixed identifier-to-unit table. -/
def getUnit (identifier : String) : Option HKUnitM :=
  if identifier == "HKQuantityTypeIdentifierActiveEnergyBurned" ||
     identifier == "HKQuantityTypeIdentifierBasalEnergyBurned" then some .kcal
  else if identifier == "HKQuantityTypeIdentifierAppleExerciseTime" ||
     identifier == "HKQuantityTypeIdentifierAppleStandTime" then some .min
  else if identifier == "HKQuantityTypeIdentifierDistanceCycling" ||
     identifier == "HKQuantityTypeIdentifierDistanceWalkingRunning" then some .km
  else if identifier == "HKQuantityTypeIdentifierFlightsClimbed" ||
     identifier == "HKQuantityTypeIdentifierStepCount" then some .count
  else if identifier == "HKQuantityTypeIdentifierHeartRate" ||
     identifier == "HKQuantityTypeIdentifierHeartRateRecoveryOneMinute" ||
     identifier == "HKQuantityTypeIdentifierRestingHeartRate" ||
     identifier == "HKQuantityTypeIdentifierRespiratoryRate" then some .countPerMin
  else if identifier == "HKQuantityTypeIdentifierHeartRateVariabilitySDNN" then some .ms
  else if identifier == "HKQuantityTypeIdentifierVO2Max" then some .mlPerKgMin
  else none

/-- iOS `mapSleepAnalysisValue`: raw HKCategoryValueSleepAnalysis codes to
descriptive strings. The iOS-16 availability check selects between two
switches whose cases coincide. -/
def mapSleepAnalysisValue (ios16 : Bool) (value : ℤ) : String :=
  if value = 0 then "HKCategoryValueSleepAnalysisInBed"
  else if value = 2 then "HKCategoryValueSleepAnalysisAwake"
  else
    if ios16 then
      if value = 3 then "HKCategoryValueSleepAnalysisAsleepCore"
      else if value = 4 then "HKCategoryValueSleepAnalysisAsleepDeep"
      else if value = 5 then "HKCategoryValueSleepAnalysisAsleepREM"
      else "UNKNOWN_SLEEP_VALUE_" ++ toString value
    else
      if value = 3 then "HKCategoryValueSleepAnalysisAsleepCore"
      else if value = 4 then "HKCategoryValueSleepAnalysisAsleepDeep"
      else if value = 5 then "HKCategoryValueSleepAnalysisAsleepREM"
      else "UNKNOWN_SLEEP_VALUE_" ++ toString value

/-- iOS `formatMetadata`: keep only scalar-compatible entries (strings,
NSNumbers, dates rendered through the ISO formatter); return nil when the
surviving dictionary is empty. -/
def formatMetadata (isoString : ℤ → String)
    (metadata : Option (List (String × MetaRaw))) : Option (List (String × MetaVal)) :=
  match metadata with
  | none => none
  | some entries =>
    let kept := entries.filterMap (fun e =>
      match e.2 with
      | .str s => some (e.1, MetaVal.str s)
      | .num q => some (e.1, MetaVal.num q)
      | .date d => some (e.1, MetaVal.str (isoString d))
      | .other => none)
    if kept.isEmpty then none else some kept

/-- An HKQuantitySample as consumed by the iOS normalizer. `magnitude u`
stands for `sample.quantity.doubleValue(for: u)` — the sample's magnitude
expressed in the requested unit. Dates are opaque instants. -/
structure IOSQuantitySample where
  identifier : String
  magnitude : HKUnitM → ℚ
  sourceName : String
  sourceVersion : Option String := none
  deviceName : Option String := none
  startDate : ℤ
  endDate : ℤ
  metadata : Option (List (String × MetaRaw)) := none

/-- An HKCategorySample as consumed by the iOS normalizer. -/
structure IOSCategorySample where
  identifier : String
  value : ℤ
  sourceName : String
  sourceVersion : Option String := none
  deviceName : Option String := none
  startDate : ℤ
  endDate : ℤ
  metadata : Option (List (String × MetaRaw)) := none

/-- An HKWorkout as consumed by the iOS normalizer; `activityName` is
`workoutActivityType.name`, energies/distances already in kcal/km via
`doubleValue(for:)`. -/
structure IOSWorkoutSample where
  activityName : String
  duration : ℚ
  totalEnergyBurnedKcal : Option ℚ := none
  totalDistanceKm : Option ℚ := none
  sourceName : String
  sourceVersion : Option String := none
  deviceName : Option String := none
  startDate : ℤ
  endDate : ℤ
  metadata : Option (List (String × MetaRaw)) := none

/-- Outcome of one HKSampleQuery completion: an error, a castable sample
list, or a nil/uncastable list (treated as "no samples found"). -/
inductive QueryReply (α : Type)
  | failure (msg : String)
  | samples (l : List α)
  | noSamples

/-- Opaque SDK behaviour surrounding the iOS module: the ISO date
formatter/printer, the iOS-16 availability flag, and the health store's
reply to the single query each branch issues (keyed by identifier and the
parsed start/end instants). -/
structure IOSEnv where
  ios16 : Bool
  parseDate : String → Option ℤ
  isoString : ℤ → String
  quantityReply : String → ℤ → ℤ → QueryReply IOSQuantitySample
  categoryReply : String → ℤ → ℤ → QueryReply IOSCategorySample
  workoutReply : ℤ → ℤ → QueryReply IOSWorkoutSample

/-- iOS quantity-sample normalization (the closure body of the quantity
branch); `creationDate` uses the sample's end date as in the source. -/
def formatQuantitySample (env : IOSEnv) (specificUnit : HKUnitM)
    (s : IOSQuantitySample) : Sample :=
  { type := s.identifier
    sourceName := s.sourceName
    sourceVersion := s.sourceVersion
    device := s.deviceName
    creationDate := env.isoString s.endDate
    startDate := env.isoString s.startDate
    endDate := env.isoString s.endDate
    metadata := formatMetadata env.isoString s.metadata
    unit := some specificUnit.unitString
    value := some (SVal.num (s.magnitude specificUnit)) }

/-- iOS category-sample normalization: sleep-analysis values are mapped to
descriptive strings, other category types keep the raw integer; no `unit`
key is emitted. -/
def formatCategorySample (env : IOSEnv) (s : IOSCategorySample) : Sample :=
  { type := s.identifier
    sourceName := s.sourceName
    sourceVersion := s.sourceVersion
    device := s.deviceName
    creationDate := env.isoString s.endDate
    startDate := env.isoString s.startDate
    endDate := env.isoString s.endDate
    metadata := formatMetadata env.isoString s.metadata
    value := some (if s.identifier == "HKCategoryTypeIdentifierSleepAnalysis" then
        SVal.str (mapSleepAnalysisValue env.ios16 s.value)
      else SVal.int s.value) }

/-- iOS workout normalization: duration in seconds plus optional totals in
kcal/km, with unit keys present only alongside their values. -/
def formatWorkoutSample (env : IOSEnv) (s : IOSWorkoutSample) : Sample :=
  { type := "HKWorkoutTypeIdentifier"
    sourceName := s.sourceName
    sourceVersion := s.sourceVersion
    device := s.deviceName
    creationDate := env.isoString s.endDate
    startDate := env.isoString s.startDate
    endDate := env.isoString s.endDate
    metadata := formatMetadata env.isoString s.metadata
    workoutActivityType := some s.activityName
    duration := some s.duration
    durationUnit := some "s"
    totalEnergyBurned := s.totalEnergyBurnedKcal
    totalEnergyBurnedUnit := s.totalEnergyBurnedKcal.map (fun _ => "kcal")
    totalDistance := s.totalDistanceKm
    totalDistanceUnit := s.totalDistanceKm.map (fun _ => "km") }

/-- Shared error result for a missing identifier/startDate/endDate — the
facade, the Android module and the iOS module all build this same shape. -/
def missingArgsResult : HealthResult :=
  { success := false
    data := []
    error := some ⟨"missing_arguments", "Missing required options: identifier, startDate, endDate."⟩ }

/-- iOS result when the ISO formatter cannot parse a date. -/
def iosInvalidDateResult : HealthResult :=
  { success := false, data := [], error := some ⟨"invalid_date", "Invalid date format."⟩ }

/-- iOS result when `getUnit` has no entry for a listed identifier. -/
def iosInternalErrorResult (identifier : String) : HealthResult :=
  { success := false
    data := []
    error := some ⟨"internal_error", "Could not determine unit for identifier: " ++ identifier⟩ }

/-- iOS result when the health store reports a query error. -/
def queryErrorResult (msg : String) : HealthResult :=
  { success := false, data := [], error := some ⟨"query_error", msg⟩ }

/-- iOS result for an identifier in none of the three identifier lists. -/
def iosUnsupportedIdentifierResult : HealthResult :=
  { success := false
    data := []
    error := some ⟨"unsupported_identifier", "Identifier not supported."⟩ }

/-- The iOS `AsyncFunction("getHealthData")`. Absent option keys read as
`""` via `as? String ?? ""`; the HK type lookups succeed for every
identifier of the fixed lists, so they are folded into the membership
tests. The workout guard compares against `HKObjectType.workoutType()`'s
identifier, the constant string "HKWorkoutTypeIdentifier". -/
def iosGetHealthData (env : IOSEnv)
    (identifier startDate endDate : Option String) : NativeCall :=
  let id := identifier.getD ""
  let sd := startDate.getD ""
  let ed := endDate.getD ""
  if id.isEmpty || sd.isEmpty || ed.isEmpty then
    { result := missingArgsResult, queried := false }
  else
    match env.parseDate sd, env.parseDate ed with
    | some start, some stop =>
      if quantityTypeIdentifiers.contains id then
        match getUnit id with
        | none => { result := iosInternalErrorResult id, queried := false }
        | some specificUnit =>
          match env.quantityReply id start stop with
          | .failure msg => { result := queryErrorResult msg, queried := true }
          | .samples l =>
            { result := { success := true
                          data := l.map (formatQuantitySample env specificUnit)
                          error := none }
              queried := true }
          | .noSamples =>
            { result := { success := true, data := [], error := none }, queried := true }
      else if categoryTypeIdentifiers.contains id then
        match env.categoryReply id start stop with
        | .failure msg => { result := queryErrorResult msg, queried := true }
        | .samples l =>
          { result := { success := true
                        data := l.map (formatCategorySample env)
                        error := none }
            queried := true }
        | .noSamples =>
          { result := { success := true, data := [], error := none }, queried := true }
      else if id == "HKWorkoutTypeIdentifier" then
        match env.workoutReply start stop with
        | .failure msg => { result := queryErrorResult msg, queried := true }
        | .samples l =>
          { result := { success := true
                        data := l.map (formatWorkoutSample env)
                        error := none }
            queried := true }
        | .noSamples =>
          { result := { success := true, data := [], error := none }, queried := true }
      else
        { result := iosUnsupportedIdentifierResult, queried := false }
    | _, _ => { result := iosInvalidDateResult, queried := false }

/-! ### Android native module -/

/-- One Health Connect record together with the payload the Android
normalizer reads from it. Constructor order follows `recordTypeMap`. -/
inductive ARecord
  | activeCaloriesBurned (energyKcal : ℚ)
  | basalMetabolicRate (kcalPerDay : ℚ)
  | bodyFat (percentage : ℚ)
  | cyclingPedalingCadence (revolutionsPerMinute : ℚ)
  | distance (meters : ℚ)
  | elevationGained (meters : ℚ)
  | exerciseSession (exerciseTypeName : String)
  | floorsClimbed (floors : ℚ)
  | heartRate (beatsPerMinute : ℤ)
  | leanBodyMass (kilograms : ℚ)
  | oxygenSaturation (percentage : ℚ)
  | respiratoryRate (rate : ℚ)
  | restingHeartRate (beatsPerMinute : ℤ)
  | sleepSession (stagesCount : ℕ)
  | speed (metersPerSecond : ℚ)
  | stepsCadence (rate : ℚ)
  | steps (count : ℤ)
  | totalCaloriesBurned (energyKcal : ℚ)
  | vo2Max (vo2MillilitersPerMinuteKilogram : ℚ)
deriving DecidableEq

/-- `record::class.simpleName`, as stored in the sample's `type` key. -/
def simpleName : ARecord → String
  | .activeCaloriesBurned _ => "ActiveCaloriesBurnedRecord"
  | .basalMetabolicRate _ => "BasalMetabolicRateRecord"
  | .bodyFat _ => "BodyFatRecord"
  | .cyclingPedalingCadence _ => "CyclingPedalingCadenceRecord"
  | .distance _ => "DistanceRecord"
  | .elevationGained _ => "ElevationGainedRecord"
  | .exerciseSession _ => "ExerciseSessionRecord"
  | .floorsClimbed _ => "FloorsClimbedRecord"
  | .heartRate _ => "HeartRateRecord"
  | .leanBodyMass _ => "LeanBodyMassRecord"
  | .oxygenSaturation _ => "OxygenSaturationRecord"
  | .respiratoryRate _ => "RespiratoryRateRecord"
  | .restingHeartRate _ => "RestingHeartRateRecord"
  | .sleepSession _ => "SleepSessionRecord"
  | .speed _ => "SpeedRecord"
  | .stepsCadence _ => "StepsCadenceRecord"
  | .steps _ => "StepsRecord"
  | .totalCaloriesBurned _ => "TotalCaloriesBurnedRecord"
  | .vo2Max _ => "Vo2MaxRecord"

/-- Android `getUnitForRecord`: the fixed record-to-unit-string table. -/
def getUnitForRecord : ARecord → String
  | .activeCaloriesBurned _ => "kcal"
  | .basalMetabolicRate _ => "kcal/day"
  | .bodyFat _ => "%"
  | .cyclingPedalingCadence _ => "rpm"
  | .distance _ => "m"
  | .elevationGained _ => "m"
  | .floorsClimbed _ => "count"
  | .heartRate _ => "bpm"
  | .leanBodyMass _ => "kg"
  | .oxygenSaturation _ => "%"
  | .respiratoryRate _ => "breaths/min"
  | .restingHeartRate _ => "bpm"
  | .speed _ => "m/s"
  | .stepsCadence _ => "steps/min"
  | .steps _ => "count"
  | .totalCaloriesBurned _ => "kcal"
  | .vo2Max _ => "mL/(kg·min)"
  | .exerciseSession _ => "session"
  | .sleepSession _ => "session"

/-- Android `getValueForRecord`: the magnitude the normalizer extracts,
matching `getUnitForRecord`'s unit choice (e.g. `distance.inMeters`). -/
def getValueForRecord : ARecord → SVal
  | .activeCaloriesBurned energyKcal => .num energyKcal
  | .basalMetabolicRate kcalPerDay => .num kcalPerDay
  | .bodyFat percentage => .num percentage
  | .cyclingPedalingCadence revolutionsPerMinute => .num revolutionsPerMinute
  | .distance meters => .num meters
  | .elevationGained meters => .num meters
  | .floorsClimbed floors => .num floors
  | .heartRate beatsPerMinute => .int beatsPerMinute
  | .leanBodyMass kilograms => .num kilograms
  | .oxygenSaturation percentage => .num percentage
  | .respiratoryRate rate => .num rate
  | .restingHeartRate beatsPerMinute => .int beatsPerMinute
  | .speed metersPerSecond => .num metersPerSecond
  | .stepsCadence rate => .num rate
  | .steps count => .int count
  | .totalCaloriesBurned energyKcal => .num energyKcal
  | .vo2Max v => .num v
  | .exerciseSession exerciseTypeName => .str exerciseTypeName
  | .sleepSession stagesCount => .int (Int.ofNat stagesCount)

/-- The keys of the Android `recordTypeMap`, in source order. -/
def recordTypeKeys : List String := [
  "ActiveCaloriesBurned", "BasalMetabolicRate", "BodyFat",
  "CyclingPedalingCadence", "Distance", "ElevationGained",
  "ExerciseSession", "FloorsClimbed", "HeartRate", "LeanBodyMass",
  "OxygenSaturation", "RespiratoryRate", "RestingHeartRate",
  "SleepSession", "Speed", "StepsCadence", "Steps",
  "TotalCaloriesBurned", "Vo2Max"]

/-- `record.metadata.device` on Android. -/
structure ADevice where
  model : Option String := none
  manufacturer : Option String := none

/-- A Health Connect record as consumed by
`formatRecordToStandardFormat`: the typed payload plus the common shell
(instantaneous or interval timing, data origin, device). Every Health
Connect record is instantaneous or interval, so the source's defensive
third branch is unreachable and not modelled. -/
structure ARecordFull where
  payload : ARecord
  instantaneous : Bool
  time : ℤ
  endTime : ℤ
  packageName : Option String := none
  device : Option ADevice := none

/-- Opaque platform behaviour surrounding the Android module: Health
Connect availability, `Instant.parse` (an `Except` because failures are
thrown and caught as query errors), the ISO_INSTANT formatter, and the
single `readRecords` call keyed by identifier and parsed time range. -/
structure AndroidEnv where
  hcAvailable : Bool
  parseInstant : String → Except String ℤ
  isoInstant : ℤ → String
  readRecords : String → ℤ → ℤ → Except String (List ARecordFull)

/-- Android `formatRecordToStandardFormat`: instantaneous records use their
single instant for all three dates; interval records use start/end, with
`creationDate` taken from the end time. -/
def formatRecordToStandardFormat (env : AndroidEnv) (r : ARecordFull) : Sample :=
  let deviceField : Option String :=
    (r.device.bind (fun d => d.model)).orElse (fun _ => r.device.bind (fun d => d.manufacturer))
  if r.instantaneous then
    { type := simpleName r.payload
      sourceName := r.packageName.getD "Unknown"
      sourceVersion := none
      device := deviceField
      creationDate := env.isoInstant r.time
      startDate := env.isoInstant r.time
      endDate := env.isoInstant r.time
      metadata := some []
      unit := some (getUnitForRecord r.payload)
      value := some (getValueForRecord r.payload) }
  else
    { type := simpleName r.payload
      sourceName := r.packageName.getD "Unknown"
      sourceVersion := none
      device := deviceField
      creationDate := env.isoInstant r.endTime
      startDate := env.isoInstant r.time
      endDate := env.isoInstant r.endTime
      metadata := some []
      unit := some (getUnitForRecord r.payload)
      value := some (getValueForRecord r.payload) }

/-- Android result when Google Health Connect is not installed. -/
def healthConnectUnavailableResult : HealthResult :=
  { success := false
    data := []
    error := some ⟨"health_connect_unavailable", "Health Connect is not available on this device."⟩ }

/-- Android result for an identifier absent from `recordTypeMap`. -/
def androidUnsupportedIdentifierResult (identifier : String) : HealthResult :=
  { success := false
    data := []
    error := some ⟨"unsupported_identifier",
      "Identifier '" ++ identifier ++ "' not supported. Available: " ++
        String.intercalate ", " recordTypeKeys⟩ }

/-- Android result for an exception thrown inside the coroutine (date
parsing or the Health Connect read). -/
def androidQueryErrorResult (msg : String) : HealthResult :=
  { success := false
    data := []
    error := some ⟨"query_error", "Failed to fetch data: " ++ msg⟩ }

/-- The Android `AsyncFunction("getHealthData")`: null checks, Health
Connect availability, record-type lookup, then parse-and-read inside a
try/catch whose failures resolve as query errors. -/
def androidGetHealthData (env : AndroidEnv)
    (identifier startDate endDate : Option String) : NativeCall :=
  match identifier, startDate, endDate with
  | some id, some sd, some ed =>
    if !env.hcAvailable then
      { result := healthConnectUnavailableResult, queried := false }
    else if !(recordTypeKeys.contains id) then
      { result := androidUnsupportedIdentifierResult id, queried := false }
    else
      match env.parseInstant sd with
      | .error msg => { result := androidQueryErrorResult msg, queried := false }
      | .ok startTime =>
        match env.parseInstant ed with
        | .error msg => { result := androidQueryErrorResult msg, queried := false }
        | .ok endTime =>
          match env.readRecords id startTime endTime with
          | .error msg => { result := androidQueryErrorResult msg, queried := true }
          | .ok records =>
            { result := { success := true
                          data := records.map (formatRecordToStandardFormat env)
                          error := none }
              queried := true }
  | _, _, _ => { result := missingArgsResult, queried := false }

/-! ### Facade -/

/-- `GetHealthDataOptions` at the facade. Required fields are `Option`s
because a JavaScript caller can omit them (`none`) or pass any string. -/
structure FacadeOptions where
  identifier : Option String := none
  startDate : Option String := none
  endDate : Option String := none
  aggregation : Option String := none
  limit : Option ℤ := none
  ascending : Option Bool := none

/-- JavaScript falsiness for an optional string: `undefined` and `""`. -/
def falsyStr : Option String → Bool
  | none => true
  | some s => s.isEmpty

/-- Facade result for a failed date-format check. -/
def facadeInvalidDateResult : HealthResult :=
  { success := false
    data := []
    error := some ⟨"invalid_date", "Dates must be in ISO 8601 format (YYYY-MM-DDTHH:mm:ss.sssZ)"⟩ }

/-- `createUnsupportedPlatformError` from the facade. -/
def createUnsupportedPlatformError : HealthResult :=
  { success := false
    data := []
    error := some ⟨"permission_denied", "Health data is only available on iOS and Android."⟩ }

/-- The facade's `getHealthData`: falsiness check on the three required
options, date-regex validation, then the platform dispatch with identifier
mapping (pass-through for `HK`-prefixed ids on iOS, membership in the
Android column on Android). The surrounding try/catch never fires in this
model because every modelled call resolves. -/
def facadeGetHealthData (os : PlatformKind) (ienv : IOSEnv) (aenv : AndroidEnv)
    (options : FacadeOptions) : FacadeCall :=
  if falsyStr options.identifier || falsyStr options.startDate || falsyStr options.endDate then
    { result := missingArgsResult, nativeCalled := false }
  else
    let sd := options.startDate.getD ""
    let ed := options.endDate.getD ""
    if !matchesDateRegex sd || !matchesDateRegex ed then
      { result := facadeInvalidDateResult, nativeCalled := false }
    else
      match os with
      | .ios =>
        let id0 := options.identifier.getD ""
        let identifier :=
          if id0.startsWith "HK" then id0
          else match lookupIdentifierMapping id0 with
            | some m => m.ios
            | none => id0
        { result := (iosGetHealthData ienv (some identifier) (some sd) (some ed)).result
          nativeCalled := true }
      | .android =>
        let id0 := options.identifier.getD ""
        let identifier :=
          if (IDENTIFIER_MAPPING.map Prod.snd).any (fun m => m.android == id0) then id0
          else match lookupIdentifierMapping id0 with
            | some m => m.android
            | none => id0
        { result := (androidGetHealthData aenv (some identifier) (some sd) (some ed)).result
          nativeCalled := true }
      | .other => { result := createUnsupportedPlatformError, nativeCalled := false }

/-- The facade's `authorizeHealthKit`: both supported platforms delegate to
the native module (whose resolved value is the `native` argument); any
other platform gets a synthesized failure without a native call. -/
def facadeAuthorizeHealthKit (os : PlatformKind) (native : AuthorizeResultM) : AuthorizeCall :=
  match os with
  | .ios => { result := native, nativeCalled := true }
  | .android => { result := native, nativeCalled := true }
  | .other =>
    { result := { success := false
                  granted := []
                  denied := []
                  error := some "Health data is only available on iOS and Android." }
      nativeCalled := false }

/-! ### Background sync -/

/-- `BackgroundSyncOptions` fields read by the iOS implementation. -/
structure BackgroundSyncOptionsM where
  syncInterval : Option ℚ := none
  dataTypes : Option (List String) := none

/-- Resolved value of enable/disable/register background-sync calls. -/
structure BackgroundSyncResultM where
  success : Bool
  error : Option String
deriving DecidableEq

/-- Resolved value of `getBackgroundSyncStatus`. -/
structure BackgroundSyncStatusM where
  enabled : Bool
  lastSync : Option String
  error : Option String
deriving DecidableEq

/-- The mutable background-sync state held on the iOS module instance. -/
structure IOSSyncState where
  syncIntervalHours : ℚ := 24
  backgroundSyncEnabled : Bool := false
  lastSyncTimestamp : Option String := none
  observerQueries : List String := []
deriving DecidableEq

/-- The sample types observed by `setupHealthDataObserver`, in source
order. -/
def observerSampleTypes : List String := [
  "HKQuantityTypeIdentifierStepCount",
  "HKQuantityTypeIdentifierHeartRate",
  "HKQuantityTypeIdentifierActiveEnergyBurned",
  "HKQuantityTypeIdentifierDistanceWalkingRunning",
  "HKQuantityTypeIdentifierFlightsClimbed",
  "HKQuantityTypeIdentifierRestingHeartRate",
  "HKQuantityTypeIdentifierRespiratoryRate",
  "HKQuantityTypeIdentifierVO2Max",
  "HKCategoryTypeIdentifierSleepAnalysis",
  "HKWorkoutTypeIdentifier"]

/-- iOS `enableBackgroundSync`: records a custom interval when supplied,
marks the flag enabled, installs the observer queries (appending to any
already installed), and resolves success. OS-side scheduling and the
completion event have no effect on the modelled state. -/
def iosEnableBackgroundSync (options : BackgroundSyncOptionsM)
    (st : IOSSyncState) : BackgroundSyncResultM × IOSSyncState :=
  let st1 := match options.syncInterval with
    | some interval => { st with syncIntervalHours := interval }
    | none => st
  let st2 := { st1 with
    backgroundSyncEnabled := true
    observerQueries := st1.observerQueries ++ observerSampleTypes }
  ({ success := true, error := none }, st2)

/-- iOS `getBackgroundSyncStatus`: reads the in-memory state only. -/
def iosGetBackgroundSyncStatus (st : IOSSyncState) : BackgroundSyncStatusM :=
  { enabled := st.backgroundSyncEnabled, lastSync := st.lastSyncTimestamp, error := none }

/-- iOS `disableBackgroundSync`: stops every observer, cancels the
scheduled task, clears the flag, and resolves success. -/
def iosDisableBackgroundSync (st : IOSSyncState) : BackgroundSyncResultM × IOSSyncState :=
  ({ success := true, error := none },
    { st with observerQueries := [], backgroundSyncEnabled := false })

/-- Android `enableBackgroundSync` stub: resolves failure, touches no
state. -/
def androidEnableBackgroundSync (_options : BackgroundSyncOptionsM) : BackgroundSyncResultM :=
  { success := false
    error := some "Background sync handled by Expo BackgroundTask service. Enable sync in main app." }

/-- Android `getBackgroundSyncStatus` stub: constant. -/
def androidGetBackgroundSyncStatus : BackgroundSyncStatusM :=
  { enabled := false, lastSync := none, error := none }

/-- Android `disableBackgroundSync` stub: constant success. -/
def androidDisableBackgroundSync : BackgroundSyncResultM :=
  { success := true, error := none }

/-! ### Result-shape invariant and concrete environments for witnesses -/

/-- Exactly one of `data`/`error` is meaningful per the `success` flag. -/
def resultWellFormed (r : HealthResult) : Prop :=
  (r.success = false → r.data = [] ∧ r.error.isSome = true) ∧
  (r.success = true → r.error = none)

/-- A fixed rendering for opaque date formatters in concrete environments. -/
def sampleIsoString : ℤ → String := fun _ => "1970-01-01T00:00:00Z"

/-- A concrete iOS environment: dates parse exactly when they match the
facade regex; every store query returns no samples. -/
def sampleIOSEnv : IOSEnv :=
  { ios16 := true
    parseDate := fun s => if matchesDateRegex s then some 0 else none
    isoString := sampleIsoString
    quantityReply := fun _ _ _ => .noSamples
    categoryReply := fun _ _ _ => .noSamples
    workoutReply := fun _ _ => .noSamples }

/-- A concrete Android environment with Health Connect installed. -/
def sampleAndroidEnv : AndroidEnv :=
  { hcAvailable := true
    parseInstant := fun s => if matchesDateRegex s then .ok 0 else .error "Text could not be parsed"
    isoInstant := sampleIsoString
    readRecords := fun _ _ _ => .ok [] }

/-- The same Android environment without Health Connect installed. -/
def sampleAndroidEnvNoHC : AndroidEnv :=
  { sampleAndroidEnv with hcAvailable := false }

/-- A concrete interval DistanceRecord of 1000 meters. -/
def distanceRecordSample : ARecordFull :=
  { payload := ARecord.distance 1000
    instantaneous := false
    time := 0
    endTime := 60
    packageName := some "com.example.app" }

/-- A concrete sleep-analysis category sample with raw code 4. -/
def sleepSampleFour : IOSCategorySample :=
  { identifier := "HKCategoryTypeIdentifierSleepAnalysis"
    value := 4
    sourceName := "Health"
    startDate := 0
    endDate := 3600 }

/-! ## Theorems -/

/-- C1: For every unified identifier in the cross-platform mapping table,
`getPlatformIdentifier` returns the documented `HK*` string on iOS and the
documented Android native record name on Android; any input outside the
table is returned unchanged. -/
theorem getPlatformIdentifier_spec :
    (∀ s, lookupIdentifierMapping s = none → ∀ os, getPlatformIdentifier os s = s) ∧
    (getPlatformIdentifier PlatformKind.ios "stepCount" = "HKQuantityTypeIdentifierStepCount" ∧
     getPlatformIdentifier PlatformKind.android "stepCount" = "Steps" ∧
     getPlatformIdentifier PlatformKind.ios "heartRate" = "HKQuantityTypeIdentifierHeartRate" ∧
     getPlatformIdentifier PlatformKind.android "heartRate" = "HeartRate" ∧
     getPlatformIdentifier PlatformKind.ios "activeEnergyBurned" = "HKQuantityTypeIdentifierActiveEnergyBurned" ∧
     getPlatformIdentifier PlatformKind.android "activeEnergyBurned" = "ActiveCaloriesBurned" ∧
     getPlatformIdentifier PlatformKind.ios "distanceWalkingRunning" = "HKQuantityTypeIdentifierDistanceWalkingRunning" ∧
     getPlatformIdentifier PlatformKind.android "distanceWalkingRunning" = "Distance" ∧
     getPlatformIdentifier PlatformKind.ios "flightsClimbed" = "HKQuantityTypeIdentifierFlightsClimbed" ∧
     getPlatformIdentifier PlatformKind.android "flightsClimbed" = "FloorsClimbed" ∧
     getPlatformIdentifier PlatformKind.ios "restingHeartRate" = "HKQuantityTypeIdentifierRestingHeartRate" ∧
     getPlatformIdentifier PlatformKind.android "restingHeartRate" = "RestingHeartRate" ∧
     getPlatformIdentifier PlatformKind.ios "respiratoryRate" = "HKQuantityTypeIdentifierRespiratoryRate" ∧
     getPlatformIdentifier PlatformKind.android "respiratoryRate" = "RespiratoryRate" ∧
     getPlatformIdentifier PlatformKind.ios "vo2Max" = "HKQuantityTypeIdentifierVO2Max" ∧
     getPlatformIdentifier PlatformKind.android "vo2Max" = "Vo2Max" ∧
     getPlatformIdentifier PlatformKind.ios "sleepAnalysis" = "HKCategoryTypeIdentifierSleepAnalysis" ∧
     getPlatformIdentifier PlatformKind.android "sleepAnalysis" = "SleepSession" ∧
     getPlatformIdentifier PlatformKind.ios "workout" = "HKWorkoutTypeIdentifier" ∧
     getPlatformIdentifier PlatformKind.android "workout" = "ExerciseSession") := by
  constructor
  · intro s hs os
    unfold getPlatformIdentifier
    rw [hs]
  · exact ⟨rfl, rfl, rfl, rfl, rfl, rfl, rfl, rfl, rfl, rfl,
      rfl, rfl, rfl, rfl, rfl, rfl, rfl, rfl, rfl, rfl⟩

/-- Witness for C1 at the unknown identifier "bogus-id". -/
theorem getPlatformIdentifier_spec_witness :
    lookupIdentifierMapping "bogus-id" = none ∧
    getPlatformIdentifier PlatformKind.ios "bogus-id" = "bogus-id" :=
  ⟨by decide, getPlatformIdentifier_spec.1 "bogus-id" (by decide) PlatformKind.ios⟩


/-- C3: the sleep-analysis normalizer maps codes 0, 2, 3, 4, 5 to the five
named sleep-stage strings (code 4 to AsleepDeep), regardless of the iOS-16
availability branch, and every other integer code to a placeholder string
embedding the raw value; the category normalizer applies this mapping to
every sleep-analysis sample. -/
theorem mapSleepAnalysisValue_spec :
    (∀ b, mapSleepAnalysisValue b 0 = "HKCategoryValueSleepAnalysisInBed" ∧
       mapSleepAnalysisValue b 2 = "HKCategoryValueSleepAnalysisAwake" ∧
       mapSleepAnalysisValue b 3 = "HKCategoryValueSleepAnalysisAsleepCore" ∧
       mapSleepAnalysisValue b 4 = "HKCategoryValueSleepAnalysisAsleepDeep" ∧
       mapSleepAnalysisValue b 5 = "HKCategoryValueSleepAnalysisAsleepREM") ∧
    (∀ b v, v ≠ 0 → v ≠ 2 → v ≠ 3 → v ≠ 4 → v ≠ 5 →
       mapSleepAnalysisValue b v = "UNKNOWN_SLEEP_VALUE_" ++ toString v) ∧
    (∀ env s, s.identifier = "HKCategoryTypeIdentifierSleepAnalysis" →
       (formatCategorySample env s).value =
         some (SVal.str (mapSleepAnalysisValue env.ios16 s.value))) := by
  refine ⟨fun b => ?_, fun b v h0 h2 h3 h4 h5 => ?_, fun env s hid => ?_⟩
  · cases b <;> exact ⟨rfl, rfl, rfl, rfl, rfl⟩
  · unfold mapSleepAnalysisValue
    rw [if_neg h0, if_neg h2]
    cases b <;> simp only [if_true, if_false, Bool.false_eq_true, if_neg h3, if_neg h4, if_neg h5]
  · simp [formatCategorySample, hid]

/-- Witness for C3: an unknown code 7 and a concrete sleep sample of code 4. -/
theorem mapSleepAnalysisValue_spec_witness :
    mapSleepAnalysisValue true 7 = "UNKNOWN_SLEEP_VALUE_7" ∧
    (formatCategorySample sampleIOSEnv sleepSampleFour).value =
      some (SVal.str "HKCategoryValueSleepAnalysisAsleepDeep") :=
  ⟨by rw [mapSleepAnalysisValue_spec.2.1 true 7 (by decide) (by decide) (by decide)
      (by decide) (by decide)]; decide,
   by rw [mapSleepAnalysisValue_spec.2.2 sampleIOSEnv sleepSampleFour rfl]; decide⟩

/-- C4: omitting any of identifier/startDate/endDate yields success false,
error code missing_arguments, empty data, short-circuited before any
native query — at the facade, the Android native, and the iOS native
(where an absent key reads as the empty string). -/
theorem missingArguments_spec :
    (∀ os ienv aenv options,
       (options.identifier = none ∨ options.startDate = none ∨ options.endDate = none) →
       facadeGetHealthData os ienv aenv options =
         { result := missingArgsResult, nativeCalled := false }) ∧
    (∀ env id sd ed, (id = none ∨ sd = none ∨ ed = none) →
       androidGetHealthData env id sd ed = { result := missingArgsResult, queried := false }) ∧
    (∀ env id sd ed, (id = none ∨ sd = none ∨ ed = none) →
       iosGetHealthData env id sd ed = { result := missingArgsResult, queried := false }) := by
  refine ⟨fun os ienv aenv options h => ?_, fun env id sd ed h => ?_, fun env id sd ed h => ?_⟩
  · rcases h with h | h | h <;> simp [facadeGetHealthData, falsyStr, h]
  · rcases h with h | h | h
    · subst h; rfl
    · subst h; cases id <;> rfl
    · subst h; cases id <;> cases sd <;> rfl
  · rcases h with h | h | h <;> subst h <;>
      simp [iosGetHealthData, show ("" : String).isEmpty = true from rfl]

/-- Witness for C4 at an options object with identifier omitted. -/
theorem missingArguments_spec_witness :
    facadeGetHealthData PlatformKind.ios sampleIOSEnv sampleAndroidEnv
      { startDate := some "2024-01-01T00:00:00Z", endDate := some "2024-01-02T00:00:00Z" } =
      { result := missingArgsResult, nativeCalled := false } :=
  missingArguments_spec.1 PlatformKind.ios sampleIOSEnv sampleAndroidEnv _ (Or.inl rfl)

/-- C10: because the facade tests JavaScript falsiness, an empty-string
identifier/startDate/endDate is reported as missing_arguments (not
unsupported_identifier or invalid_date); the iOS native layer guards on
emptiness of the parsed strings and makes the same choice. -/
theorem emptyStringArgs_spec :
    (∀ os ienv aenv options,
       (options.identifier = some "" ∨ options.startDate = some "" ∨ options.endDate = some "") →
       facadeGetHealthData os ienv aenv options =
         { result := missingArgsResult, nativeCalled := false }) ∧
    (∀ env id sd ed, (id = some "" ∨ sd = some "" ∨ ed = some "") →
       iosGetHealthData env id sd ed = { result := missingArgsResult, queried := false }) ∧
    missingArgsResult.error.map HealthError.code = some "missing_arguments" ∧
    ("missing_arguments" : String) ≠ "unsupported_identifier" ∧
    ("missing_arguments" : String) ≠ "invalid_date" := by
  refine ⟨fun os ienv aenv options h => ?_, fun env id sd ed h => ?_, rfl, by decide, by decide⟩
  · rcases h with h | h | h <;>
      simp [facadeGetHealthData, falsyStr, h, show ("" : String).isEmpty = true from rfl]
  · rcases h with h | h | h <;> subst h <;>
      simp [iosGetHealthData, show ("" : String).isEmpty = true from rfl]

/-- Witness for C10 at an empty-string identifier. -/
theorem emptyStringArgs_spec_witness :
    facadeGetHealthData PlatformKind.ios sampleIOSEnv sampleAndroidEnv
      { identifier := some "", startDate := some "2024-01-01T00:00:00Z",
        endDate := some "2024-01-02T00:00:00Z" } =
      { result := missingArgsResult, nativeCalled := false } :=
  emptyStringArgs_spec.1 PlatformKind.ios sampleIOSEnv sampleAndroidEnv _ (Or.inl rfl)

/-- C5 counterexample: an empty startDate does not match the date pattern,
yet the facade reports missing_arguments (the falsiness check fires
first), not invalid_date, refuting the claim as universally stated. -/
theorem emptyDate_missingArguments_not_invalidDate :
    matchesDateRegex "" = false ∧
    (facadeGetHealthData PlatformKind.ios sampleIOSEnv sampleAndroidEnv
        { identifier := some "stepCount", startDate := some "",
          endDate := some "2024-01-02T00:00:00Z" }).result =
      missingArgsResult ∧
    missingArgsResult.error.map HealthError.code = some "missing_arguments" ∧
    ("missing_arguments" : String) ≠ "invalid_date" := by
  refine ⟨rfl, ?_, rfl, by decide⟩
  decide

/-- C5 amended: provided identifier, startDate and endDate are all
present and non-empty (pass the falsiness check), a startDate or endDate
that fails the ISO-8601 pattern makes the facade return success false,
error code invalid_date, empty data, without calling native code. -/
theorem invalidDate_spec :
    ∀ os ienv aenv options,
      falsyStr options.identifier = false → falsyStr options.startDate = false →
      falsyStr options.endDate = false →
      (matchesDateRegex (options.startDate.getD "") = false ∨
        matchesDateRegex (options.endDate.getD "") = false) →
      facadeGetHealthData os ienv aenv options =
        { result := facadeInvalidDateResult, nativeCalled := false } := by
  intro os ienv aenv options h1 h2 h3 h4
  unfold facadeGetHealthData
  rw [h1, h2, h3]
  simp only [Bool.or_self, Bool.false_or, if_false, Bool.false_eq_true]
  rcases h4 with h4 | h4 <;> simp [h4]

/-- Witness for C5 at startDate "not-a-date". -/
theorem invalidDate_spec_witness :
    matchesDateRegex "not-a-date" = false ∧
    facadeGetHealthData PlatformKind.ios sampleIOSEnv sampleAndroidEnv
        { identifier := some "stepCount", startDate := some "not-a-date",
          endDate := some "2024-01-02T00:00:00Z" } =
      { result := facadeInvalidDateResult, nativeCalled := false } :=
  ⟨by decide,
   invalidDate_spec PlatformKind.ios sampleIOSEnv sampleAndroidEnv _
     (by decide) (by decide) (by decide) (Or.inl (by decide))⟩

/-- C6 counterexample: on an Android device without Health Connect, an
unknown identifier with well-formed dates yields health_connect_unavailable,
not unsupported_identifier, refuting the claim as stated for Android. -/
theorem noHealthConnect_not_unsupportedIdentifier :
    matchesDateRegex "2024-01-01T00:00:00Z" = true ∧
    androidGetHealthData sampleAndroidEnvNoHC (some "bogus-id")
        (some "2024-01-01T00:00:00Z") (some "2024-01-02T00:00:00Z") =
      { result := healthConnectUnavailableResult, queried := false } ∧
    healthConnectUnavailableResult.error.map HealthError.code =
      some "health_connect_unavailable" ∧
    ("health_connect_unavailable" : String) ≠ "unsupported_identifier" := by
  refine ⟨by decide, by decide, rfl, by decide⟩

/-- C6 amended: with non-empty arguments, parseable dates and an
identifier in none of the iOS identifier lists, the iOS module returns
unsupported_identifier with empty data and no query; the Android module
does the same for identifiers outside its record-type table provided
Health Connect is available (otherwise health_connect_unavailable is
returned first). -/
theorem unsupportedIdentifier_spec :
    (∀ env id sd ed startTime endTime,
       id.isEmpty = false → sd.isEmpty = false → ed.isEmpty = false →
       env.parseDate sd = some startTime → env.parseDate ed = some endTime →
       id ∉ quantityTypeIdentifiers → id ∉ categoryTypeIdentifiers →
       id ≠ "HKWorkoutTypeIdentifier" →
       iosGetHealthData env (some id) (some sd) (some ed) =
         { result := iosUnsupportedIdentifierResult, queried := false }) ∧
    (∀ env id sd ed, env.hcAvailable = true → id ∉ recordTypeKeys →
       androidGetHealthData env (some id) (some sd) (some ed) =
         { result := androidUnsupportedIdentifierResult id, queried := false }) := by
  constructor
  · intro env id sd ed startTime endTime hid hsd hed hp1 hp2 hq hc hw
    unfold iosGetHealthData
    simp only [Option.getD_some, hid, hsd, hed, Bool.or_self, Bool.false_eq_true,
      if_false, hp1, hp2]
    simp [hq, hc, hw]
  · intro env id sd ed hav hkeys
    unfold androidGetHealthData
    simp [hav, hkeys]

/-- Witness for C6 at identifier "bogus-id" on both platforms. -/
theorem unsupportedIdentifier_spec_witness :
    iosGetHealthData sampleIOSEnv (some "bogus-id")
        (some "2024-01-01T00:00:00Z") (some "2024-01-02T00:00:00Z") =
      { result := iosUnsupportedIdentifierResult, queried := false } ∧
    androidGetHealthData sampleAndroidEnv (some "bogus-id")
        (some "2024-01-01T00:00:00Z") (some "2024-01-02T00:00:00Z") =
      { result := androidUnsupportedIdentifierResult "bogus-id", queried := false } :=
  ⟨unsupportedIdentifier_spec.1 sampleIOSEnv "bogus-id"
      "2024-01-01T00:00:00Z" "2024-01-02T00:00:00Z" 0 0
      (by decide) (by decide) (by decide) (by decide) (by decide)
      (by decide) (by decide) (by decide),
   unsupportedIdentifier_spec.2 sampleAndroidEnv "bogus-id"
      "2024-01-01T00:00:00Z" "2024-01-02T00:00:00Z" (by decide) (by decide)⟩

/-- C2 counterexample: the Android normalizer reports a DistanceRecord in
meters ("m", value `distance.inMeters`), not kilometers, refuting the
claim's unit table for the Android side. -/
theorem androidDistance_meters_not_km :
    (formatRecordToStandardFormat sampleAndroidEnv distanceRecordSample).unit = some "m" ∧
    (formatRecordToStandardFormat sampleAndroidEnv distanceRecordSample).value =
      some (SVal.num 1000) ∧
    ("m" : String) ≠ "km" := by
  refine ⟨by decide, by decide, by decide⟩

/-- C2 amended: the iOS normalizer follows the claimed identifier-to-unit
table (steps/flights to count, heart-rate-like to count/min, distances to
km, energy to kcal, HRV to ms, VO2Max to mL/(kg*min)) and emits the
sample's magnitude expressed in that unit; the Android normalizer emits
the magnitude in its own per-record units, where distance is meters ("m")
and heart rate is "bpm". -/
theorem quantityUnitTables_spec :
    (getUnit "HKQuantityTypeIdentifierStepCount" = some HKUnitM.count ∧
     getUnit "HKQuantityTypeIdentifierFlightsClimbed" = some HKUnitM.count ∧
     getUnit "HKQuantityTypeIdentifierHeartRate" = some HKUnitM.countPerMin ∧
     getUnit "HKQuantityTypeIdentifierRestingHeartRate" = some HKUnitM.countPerMin ∧
     getUnit "HKQuantityTypeIdentifierHeartRateRecoveryOneMinute" = some HKUnitM.countPerMin ∧
     getUnit "HKQuantityTypeIdentifierRespiratoryRate" = some HKUnitM.countPerMin ∧
     getUnit "HKQuantityTypeIdentifierDistanceWalkingRunning" = some HKUnitM.km ∧
     getUnit "HKQuantityTypeIdentifierDistanceCycling" = some HKUnitM.km ∧
     getUnit "HKQuantityTypeIdentifierActiveEnergyBurned" = some HKUnitM.kcal ∧
     getUnit "HKQuantityTypeIdentifierBasalEnergyBurned" = some HKUnitM.kcal ∧
     getUnit "HKQuantityTypeIdentifierHeartRateVariabilitySDNN" = some HKUnitM.ms ∧
     getUnit "HKQuantityTypeIdentifierVO2Max" = some HKUnitM.mlPerKgMin) ∧
    (∀ env u s, (formatQuantitySample env u s).unit = some u.unitString ∧
       (formatQuantitySample env u s).value = some (SVal.num (s.magnitude u))) ∧
    (∀ env r, (formatRecordToStandardFormat env r).unit = some (getUnitForRecord r.payload) ∧
       (formatRecordToStandardFormat env r).value = some (getValueForRecord r.payload)) ∧
    ((∀ n, getUnitForRecord (ARecord.steps n) = "count" ∧
        getValueForRecord (ARecord.steps n) = SVal.int n) ∧
     (∀ q, getUnitForRecord (ARecord.floorsClimbed q) = "count" ∧
        getValueForRecord (ARecord.floorsClimbed q) = SVal.num q) ∧
     (∀ n, getUnitForRecord (ARecord.heartRate n) = "bpm" ∧
        getValueForRecord (ARecord.heartRate n) = SVal.int n) ∧
     (∀ q, getUnitForRecord (ARecord.distance q) = "m" ∧
        getValueForRecord (ARecord.distance q) = SVal.num q) ∧
     (∀ q, getUnitForRecord (ARecord.activeCaloriesBurned q) = "kcal" ∧
        getValueForRecord (ARecord.activeCaloriesBurned q) = SVal.num q) ∧
     (∀ q, getUnitForRecord (ARecord.vo2Max q) = "mL/(kg·min)" ∧
        getValueForRecord (ARecord.vo2Max q) = SVal.num q)) := by
  refine ⟨⟨rfl, rfl, rfl, rfl, rfl, rfl, rfl, rfl, rfl, rfl, rfl, rfl⟩,
    fun env u s => ⟨rfl, rfl⟩, fun env r => ?_,
    fun n => ⟨rfl, rfl⟩, fun q => ⟨rfl, rfl⟩, fun n => ⟨rfl, rfl⟩,
    fun q => ⟨rfl, rfl⟩, fun q => ⟨rfl, rfl⟩, fun q => ⟨rfl, rfl⟩⟩
  unfold formatRecordToStandardFormat
  cases h : r.instantaneous <;> simp [h]

/-- C8 counterexample: on a non-iOS/non-Android platform the facade's
input validation still runs first, so a call with an empty identifier
resolves with missing_arguments rather than the synthesized
permission_denied platform error, refuting the claim as stated. -/
theorem otherPlatform_validation_first :
    (facadeGetHealthData PlatformKind.other sampleIOSEnv sampleAndroidEnv
        { identifier := some "", startDate := some "2024-01-01T00:00:00Z",
          endDate := some "2024-01-02T00:00:00Z" }).result = missingArgsResult ∧
    missingArgsResult ≠ createUnsupportedPlatformError := by
  refine ⟨by decide, by decide⟩

/-- C8 amended: on any platform other than iOS and Android, both
authorizeHealthKit and getHealthData resolve with success false and no
native call; getHealthData carries the synthesized permission_denied
result whenever the options pass the facade's own validation (otherwise
the validation error is returned, still with success false and no native
call). -/
theorem unsupportedPlatform_spec :
    (∀ native, (facadeAuthorizeHealthKit PlatformKind.other native).result.success = false ∧
       (facadeAuthorizeHealthKit PlatformKind.other native).nativeCalled = false) ∧
    (∀ ienv aenv options,
       (facadeGetHealthData PlatformKind.other ienv aenv options).result.success = false ∧
       (facadeGetHealthData PlatformKind.other ienv aenv options).nativeCalled = false) ∧
    (∀ ienv aenv options,
       falsyStr options.identifier = false → falsyStr options.startDate = false →
       falsyStr options.endDate = false →
       matchesDateRegex (options.startDate.getD "") = true →
       matchesDateRegex (options.endDate.getD "") = true →
       facadeGetHealthData PlatformKind.other ienv aenv options =
         { result := createUnsupportedPlatformError, nativeCalled := false }) := by
  refine ⟨fun native => ⟨rfl, rfl⟩, fun ienv aenv options => ?_,
    fun ienv aenv options h1 h2 h3 h4 h5 => ?_⟩
  · unfold facadeGetHealthData
    repeat' split <;>
      simp [missingArgsResult, facadeInvalidDateResult, createUnsupportedPlatformError]
  · unfold facadeGetHealthData
    rw [h1, h2, h3]
    simp [h4, h5]

/-- Witness for C8 at a validation-passing options object. -/
theorem unsupportedPlatform_spec_witness :
    facadeGetHealthData PlatformKind.other sampleIOSEnv sampleAndroidEnv
        { identifier := some "stepCount", startDate := some "2024-01-01T00:00:00Z",
          endDate := some "2024-01-02T00:00:00Z" } =
      { result := createUnsupportedPlatformError, nativeCalled := false } :=
  unsupportedPlatform_spec.2.2 sampleIOSEnv sampleAndroidEnv _
    (by decide) (by decide) (by decide) (by decide) (by decide)

/-- C9 counterexample: the Android background-sync implementation is a
stateless stub — enableBackgroundSync resolves success false and
getBackgroundSyncStatus always reports enabled false, so enable followed
by getStatus does not report enabled true on Android. -/
theorem androidBackgroundSync_stub :
    androidEnableBackgroundSync { syncInterval := some 1, dataTypes := some ["Steps"] } =
      { success := false
        error := some "Background sync handled by Expo BackgroundTask service. Enable sync in main app." } ∧
    androidGetBackgroundSyncStatus.enabled = false := by
  refine ⟨rfl, rfl⟩

/-- C9 amended: on iOS, enableBackgroundSync followed by
getBackgroundSyncStatus reports enabled true, and disableBackgroundSync
followed by getBackgroundSyncStatus reports enabled false; on Android the
background-sync stubs report success false from enable and enabled false
from every status call. -/
theorem backgroundSync_toggle_spec :
    (∀ options st,
       (iosGetBackgroundSyncStatus (iosEnableBackgroundSync options st).2).enabled = true) ∧
    (∀ st, (iosGetBackgroundSyncStatus (iosDisableBackgroundSync st).2).enabled = false) ∧
    (∀ options, (androidEnableBackgroundSync options).success = false) ∧
    androidGetBackgroundSyncStatus.enabled = false := by
  refine ⟨fun options st => ?_, fun st => rfl, fun options => rfl, rfl⟩
  rcases options with ⟨si, dt⟩
  cases si <;> rfl

/-- Helper for C7: every branch of the iOS getHealthData produces a
well-formed result. -/
theorem resultWellFormed_ios (env : IOSEnv) (id sd ed : Option String) :
    resultWellFormed (iosGetHealthData env id sd ed).result := by
  unfold iosGetHealthData
  dsimp only
  repeat' split
  all_goals
    simp [resultWellFormed, missingArgsResult, iosInvalidDateResult,
      iosInternalErrorResult, queryErrorResult, iosUnsupportedIdentifierResult]

/-- Helper for C7: every branch of the Android getHealthData produces a
well-formed result. -/
theorem resultWellFormed_android (env : AndroidEnv) (id sd ed : Option String) :
    resultWellFormed (androidGetHealthData env id sd ed).result := by
  unfold androidGetHealthData
  repeat' split
  all_goals
    simp [resultWellFormed, missingArgsResult, healthConnectUnavailableResult,
      androidUnsupportedIdentifierResult, androidQueryErrorResult]

/-- Helper for C7: every branch of the facade getHealthData produces a
well-formed result. -/
theorem resultWellFormed_facade (os : PlatformKind) (ienv : IOSEnv)
    (aenv : AndroidEnv) (options : FacadeOptions) :
    resultWellFormed (facadeGetHealthData os ienv aenv options).result := by
  unfold facadeGetHealthData
  dsimp only
  repeat' split
  all_goals
    first
      | exact resultWellFormed_ios ienv _ _ _
      | exact resultWellFormed_android aenv _ _ _
      | simp [resultWellFormed, missingArgsResult, facadeInvalidDateResult,
          createUnsupportedPlatformError]

/-- C7: every result of getHealthData — on every branch of the facade and
of both platform implementations — satisfies: success false implies empty
data and a populated error, success true implies a null/absent error. -/
theorem resultShape_invariant :
    (∀ env id sd ed, resultWellFormed (iosGetHealthData env id sd ed).result) ∧
    (∀ env id sd ed, resultWellFormed (androidGetHealthData env id sd ed).result) ∧
    (∀ os ienv aenv options,
       resultWellFormed (facadeGetHealthData os ienv aenv options).result) :=
  ⟨resultWellFormed_ios, resultWellFormed_android, resultWellFormed_facade⟩
